import Mathlib

/-!
Verification of the cursor-chat-browser storage-statistics routes.

The definitions below are a shallow embedding of the TypeScript sources:
* `src/app/api/statistics/route.ts` (global database analyzer, workspace scanner),
* `src/app/api/database-entry/route.ts` (single-entry lookup),
* `src/app/api/remove-empty-workspaces/route.ts` (workspace pruner),
* `src/app/database-entry/page.tsx` (key classifier `formatDataType`).

JavaScript `string | null` values are embedded as `Option String`; JS truthiness
of such a value (`!value`) is `jsTruthy`.  Floating point megabyte arithmetic is
idealised as exact rational arithmetic over `ℚ`.  JS objects used as
insertion-ordered string maps are embedded as association lists kept in
insertion order, with `m[k] = f(m[k])` embedded as `alistUpdate`.
Database and filesystem effects are passed in explicitly (row lists, existence
predicates, query oracles); a JS exception thrown by an awaited call is an
`Except.error`.
-/

/-- One row of a key-value table (`SELECT [key], value FROM ...`).
The value column is nullable. -/
structure StorageRow where
  key : String
  value : Option String
deriving DecidableEq

/-- JS truthiness of a `string | null | undefined` value: `null`, `undefined`
and the empty string are falsy. -/
def jsTruthy : Option String → Bool
  | none => false
  | some s => !(s == "")

/-- Embeds `calculateDataSizeMB` from `statistics/route.ts`:
`if (!data) return 0; return Buffer.byteLength(data, 'utf8') / (1024 * 1024)`. -/
def calculateDataSizeMB (data : Option String) : ℚ :=
  if jsTruthy data then ((data.getD "").utf8ByteSize : ℚ) / (1024 * 1024) else 0

/-- Embeds the JS map update `m[k] = f(m[k])` on an insertion-ordered object:
updates the binding in place if the key is present, otherwise appends it. -/
def alistUpdate (m : List (String × α)) (k : String) (f : Option α → α) :
    List (String × α) :=
  match m with
  | [] => [(k, f none)]
  | (k', v) :: rest =>
      if k' == k then (k', f (some v)) :: rest else (k', v) :: alistUpdate rest k f

/-- One element of `largestEntries`. -/
structure LargestEntry where
  key : String
  sizeMB : ℚ
  type : String
deriving DecidableEq

/-- One element of the `allEntriesWithSize` candidate list. -/
structure EntryWithSize where
  key : String
  sizeMB : ℚ
  value : String
deriving DecidableEq

/-- The `GlobalDatabaseStats` interface from `statistics/route.ts`. -/
structure GlobalDatabaseStats where
  totalEntries : Nat
  composerEntries : Nat
  otherEntries : Nat
  totalSizeMB : ℚ
  composerDataSizeMB : ℚ
  otherDataSizeMB : ℚ
  entriesByType : List (String × Nat)
  entriesSizeByType : List (String × ℚ)
  largestEntries : List LargestEntry
  sampleKeys : List (String × List String)
deriving DecidableEq

/-- The initial all-zero statistics record built at the top of
`analyzeGlobalDatabase`. -/
def emptyGlobalDatabaseStats : GlobalDatabaseStats :=
  { totalEntries := 0
    composerEntries := 0
    otherEntries := 0
    totalSizeMB := 0
    composerDataSizeMB := 0
    otherDataSizeMB := 0
    entriesByType := []
    entriesSizeByType := []
    largestEntries := []
    sampleKeys := [] }

/-- Embeds JS `s.startsWith(p)`, on the character-list representation of
strings (so that proofs can evaluate it). -/
def strStartsWith (s p : String) : Bool := p.data.isPrefixOf s.data

/-- Embeds `key.split(':')[0] || 'unknown'`: the substring of the key before
the first `:` (the whole key if it has no `:`), defaulting to `"unknown"`
when that substring is empty. -/
def coarseType (key : String) : String :=
  let head := String.mk (key.data.takeWhile (fun c => !(c == ':')))
  if head == "" then "unknown" else head

/-- Loop state of the scan in `analyzeGlobalDatabase`: the statistics record
under construction plus the `allEntriesWithSize` candidate list. -/
structure ScanState where
  stats : GlobalDatabaseStats
  allEntriesWithSize : List EntryWithSize

/-- One iteration of the `for (const entry of allEntries)` loop of
`analyzeGlobalDatabase` (lines 50-83 of `statistics/route.ts`). -/
def scanStep (st : ScanState) (entry : StorageRow) : ScanState :=
  if jsTruthy entry.value then
    let key := entry.key
    let sizeMB := calculateDataSizeMB entry.value
    let stats0 := st.stats
    let stats1 := { stats0 with totalSizeMB := stats0.totalSizeMB + sizeMB }
    let cands := st.allEntriesWithSize ++ [⟨key, sizeMB, entry.value.getD ""⟩]
    if strStartsWith key "composerData:" then
      { stats := { stats1 with
          composerEntries := stats1.composerEntries + 1
          composerDataSizeMB := stats1.composerDataSizeMB + sizeMB }
        allEntriesWithSize := cands }
    else
      let keyType := coarseType key
      { stats := { stats1 with
          otherEntries := stats1.otherEntries + 1
          otherDataSizeMB := stats1.otherDataSizeMB + sizeMB
          entriesByType := alistUpdate stats1.entriesByType keyType
            (fun o => o.getD 0 + 1)
          entriesSizeByType := alistUpdate stats1.entriesSizeByType keyType
            (fun o => o.getD 0 + sizeMB)
          sampleKeys := alistUpdate stats1.sampleKeys keyType
            (fun o => let l := o.getD []; if l.length < 3 then l ++ [key] else l) }
        allEntriesWithSize := cands }
  else st

/-- `MIN_SIZE_MB = 0.1` from `statistics/route.ts`. -/
def MIN_SIZE_MB : ℚ := 1 / 10

/-- The comparator `(a, b) => b.sizeMB - a.sizeMB` passed to the (stable)
JS `Array.prototype.sort`: `a` may stay before `b` iff `b.sizeMB ≤ a.sizeMB`.
A stable sort under a total transitive comparator is a unique function on
lists, so the JS sort is embedded as the stable `List.insertionSort` below. -/
def sizeDescRel (a b : EntryWithSize) : Prop := b.sizeMB ≤ a.sizeMB

instance : DecidableRel sizeDescRel :=
  fun a b => inferInstanceAs (Decidable (b.sizeMB ≤ a.sizeMB))

instance : IsTotal EntryWithSize sizeDescRel :=
  ⟨fun a b => le_total b.sizeMB a.sizeMB⟩

instance : IsTrans EntryWithSize sizeDescRel :=
  ⟨fun _ _ _ hab hbc => le_trans hbc hab⟩

/-- The body of `analyzeGlobalDatabase` once the row scan has succeeded:
the per-row loop, the 0.1 MB bucket filter, and the top-10 ranking. -/
def analyzeRows (allEntries : List StorageRow) : GlobalDatabaseStats :=
  let init : ScanState :=
    { stats := { emptyGlobalDatabaseStats with totalEntries := allEntries.length }
      allEntriesWithSize := [] }
  let st := allEntries.foldl scanStep init
  let stats := st.stats
  let kept := stats.entriesByType.filter
    (fun p : String × Nat => MIN_SIZE_MB ≤ ((stats.entriesSizeByType.lookup p.1).getD 0))
  let stats2 := { stats with
    entriesByType := kept
    entriesSizeByType :=
      kept.map (fun p : String × Nat => (p.1, (stats.entriesSizeByType.lookup p.1).getD 0))
    sampleKeys :=
      kept.map (fun p : String × Nat => (p.1, (stats.sampleKeys.lookup p.1).getD [])) }
  { stats2 with
    largestEntries :=
      ((st.allEntriesWithSize.insertionSort sizeDescRel).take 10).map
        (fun e : EntryWithSize => ⟨e.key, e.sizeMB, coarseType e.key⟩) }

/-- Embeds `analyzeGlobalDatabase`.  `fileExists` is the `existsSync` check on
the global database path; `dbScan` is the combined outcome of
`open`/`db.all`/`db.close` (`Except.error` when any of them throws, which the
surrounding `try`/`catch` turns into returning the untouched zero record). -/
def analyzeGlobalDatabase (fileExists : Bool)
    (dbScan : Except Unit (List StorageRow)) : GlobalDatabaseStats :=
  if fileExists then
    match dbScan with
    | .error _ => emptyGlobalDatabaseStats
    | .ok rows => analyzeRows rows
  else emptyGlobalDatabaseStats

/-- Embeds `formatDataType` from `database-entry/page.tsx` (lines 61-70):
five key-start checks, then two exact matches, else `"Unknown"`. -/
def formatDataType (key : String) : String :=
  if strStartsWith key "bubbleId:" then "Chat Message"
  else if strStartsWith key "checkpointId:" then "Checkpoint"
  else if strStartsWith key "codeBlockDiff:" then "Code Diff"
  else if strStartsWith key "messageRequestContext:" then "Message Context"
  else if strStartsWith key "composerData:" then "Composer Data"
  else if key == "workbench.panel.aichat.view.aichat.chatdata" then "Chat Data"
  else if key == "composer.composerData" then "Composer Metadata"
  else "Unknown"

/-- Modelled from the spec: the eight Key Classifier rules in the order the
spec states them (section 4.1), first match wins — the two exact matches
first, then the five key-start rules, else `"Unknown"`. -/
def classifySpecOrder (key : String) : String :=
  if key == "workbench.panel.aichat.view.aichat.chatdata" then "Chat Data"
  else if key == "composer.composerData" then "Composer Metadata"
  else if strStartsWith key "bubbleId:" then "Chat Message"
  else if strStartsWith key "checkpointId:" then "Checkpoint"
  else if strStartsWith key "codeBlockDiff:" then "Code Diff"
  else if strStartsWith key "messageRequestContext:" then "Message Context"
  else if strStartsWith key "composerData:" then "Composer Data"
  else "Unknown"

/-! ### Single-entry lookup (`database-entry/route.ts`) -/

/-- The response of the single-entry `GET` handler, reduced to the shapes the
route can produce: the success JSON body (with the byte size of the value),
a 400, a 404, or the catch-all 500. -/
inductive DbResponse where
  | ok (key : String) (rawValue : String) (source : Option String) (size : Nat)
  | clientError (msg : String)
  | notFound (msg : String)
  | serverError (msg : String)
deriving DecidableEq

/-- Query-string parameters of the single-entry lookup;
`searchParams.get` yields `null` for a missing parameter. -/
structure DbEntryRequest where
  keyParam : Option String
  sourceParam : Option String

/-- The environment the single-entry handler reads: the configured workspace
root, which database files exist, and the database query oracle.
`query dbPath table key` is `Except.error` when `db.get` throws, `.ok none`
when no row matches, and `.ok (some v)` for a row with value `v`
(`v = none` embeds a SQL NULL value). -/
structure DbEntryWorld where
  workspacePath : String
  fileExists : String → Bool
  query : String → String → String → Except Unit (Option (Option String))

/-- Embeds `path.join(workspacePath, '..', 'globalStorage', 'state.vscdb')`. -/
def globalDbPath (workspacePath : String) : String :=
  workspacePath ++ "/../globalStorage/state.vscdb"

/-- Embeds `path.join(workspacePath, source || '', 'state.vscdb')`. -/
def workspaceDbPath (workspacePath : String) (source : Option String) : String :=
  workspacePath ++ "/" ++ source.getD "" ++ "/state.vscdb"

/-- The `dbPath`/`tableName` pair selected by the handler:
`source === 'global'` routes to the global store's `cursorDiskKV` table,
anything else to the workspace's `ItemTable`. -/
def resolvedDb (req : DbEntryRequest) (w : DbEntryWorld) : String × String :=
  if req.sourceParam == some "global" then
    (globalDbPath w.workspacePath, "cursorDiskKV")
  else
    (workspaceDbPath w.workspacePath req.sourceParam, "ItemTable")

/-- What the single-entry handler did: its response, the database it queried
(if it got that far), and how many handles it opened and closed. -/
structure DbEntryOutcome where
  response : DbResponse
  queried : Option (String × String)
  openedHandles : Nat
  closedHandles : Nat
deriving DecidableEq

/-- Embeds the `GET` handler of `database-entry/route.ts`.  The `open` call is
taken to succeed whenever it is reached (a throwing `open` creates no handle,
so it cannot leak one); a throwing `db.get` is `query ... = .error`, which the
outer `catch` turns into the generic 500 — note `db.close()` is skipped on
that path.  A found row with NULL value reaches `Buffer.byteLength(null)`,
which throws after the handle was closed, giving the generic 500. -/
def databaseEntryGET (req : DbEntryRequest) (w : DbEntryWorld) : DbEntryOutcome :=
  if !(jsTruthy req.keyParam) then
    ⟨.clientError "Key parameter is required", none, 0, 0⟩
  else if w.workspacePath == "" then
    ⟨.clientError "Workspace path not configured. Please configure it in the settings first.",
      none, 0, 0⟩
  else
    let key := req.keyParam.getD ""
    let db := resolvedDb req w
    if !(w.fileExists db.1) then
      ⟨.notFound "Database not found", none, 0, 0⟩
    else
      match w.query db.1 db.2 key with
      | .error _ => ⟨.serverError "Failed to get database entry", some db, 1, 0⟩
      | .ok none => ⟨.notFound "Entry not found", some db, 1, 1⟩
      | .ok (some none) =>
          ⟨.serverError "Failed to get database entry", some db, 1, 1⟩
      | .ok (some (some v)) =>
          ⟨.ok key v req.sourceParam v.utf8ByteSize, some db, 1, 1⟩

/-! ### Workspace scanner (`statistics/route.ts`, `GET`) -/

/-- The `WorkspaceStats` interface from `statistics/route.ts`. -/
structure WorkspaceStats where
  id : String
  hasChats : Bool
  hasComposers : Bool
  chatCount : Nat
  composerCount : Nat
  folder : Option String
  chatDataSizeMB : ℚ
  composerDataSizeMB : ℚ
  totalSizeMB : ℚ
deriving DecidableEq

/-- What the scanner reads for one workspace directory that has a
`state.vscdb`: its name, the optional `workspace.json` folder, and the two
`db.get` row results (outer `Option`: row present; inner: value non-NULL). -/
structure WorkspaceScanInput where
  id : String
  folder : Option String
  chatResult : Option (Option String)
  composerResult : Option (Option String)

/-- Embeds lines 210-221 (and the symmetric 229-240) of `statistics/route.ts`:
`hasChats = !!chatResult?.value`; if truthy, `JSON.parse` the value inside a
`try` — on success the count is `parsed.tabs?.length || 0` (embedded as the
oracle `parse` returning `some count`) and the size is computed; a throwing
parse (`parse` returns `none`) is caught, leaving count and size at 0. -/
def analyzeWorkspaceField (parse : String → Option Nat)
    (result : Option (Option String)) : Bool × Nat × ℚ :=
  let value : Option String := result.bind id
  if jsTruthy value then
    match parse (value.getD "") with
    | some n => (true, n, calculateDataSizeMB value)
    | none => (true, 0, 0)
  else (false, 0, 0)

/-- Embeds the per-workspace record assembly of the statistics `GET`
(lines 204-253): `parseChat`/`parseComposer` are the JSON-decode oracles for
the chat-data `tabs` list and the composer-data `allComposers` list. -/
def scanWorkspace (parseChat parseComposer : String → Option Nat)
    (wi : WorkspaceScanInput) : WorkspaceStats :=
  let c := analyzeWorkspaceField parseChat wi.chatResult
  let k := analyzeWorkspaceField parseComposer wi.composerResult
  { id := wi.id
    hasChats := c.1
    hasComposers := k.1
    chatCount := c.2.1
    composerCount := k.2.1
    folder := wi.folder
    chatDataSizeMB := c.2.2
    composerDataSizeMB := k.2.2
    totalSizeMB := c.2.2 + k.2.2 }

/-- Embeds the workspace loop of the statistics `GET`: each directory either
throws while being processed (`Except.error`, caught per-workspace and
omitted) or contributes one record pushed onto `workspaceDetails`. -/
def scanWorkspaces (parseChat parseComposer : String → Option Nat)
    (inputs : List (Except Unit WorkspaceScanInput)) : List WorkspaceStats :=
  inputs.foldl
    (fun acc i =>
      match i with
      | .error _ => acc
      | .ok wi => acc ++ [scanWorkspace parseChat parseComposer wi])
    []

/-! ### Workspace pruner (`remove-empty-workspaces/route.ts`) -/

/-- The success body of the pruner `DELETE` handler. -/
structure RemoveResult where
  removedWorkspaces : List String
  removedCount : Nat
  errors : List (String × String)
deriving DecidableEq

/-- Loop state of the pruner: successes so far, per-item errors so far, and
the directories still existing on disk. -/
structure PruneState where
  removed : List String
  errors : List (String × String)
  dirs : List String

/-- One iteration of the `for (const workspaceId of workspaceIds)` loop:
`fs.access` failing (directory not on disk) records a per-item error and
continues; otherwise `fs.rm` removes the directory and records success. -/
def pruneStep (st : PruneState) (workspaceId : String) : PruneState :=
  if st.dirs.contains workspaceId then
    { removed := st.removed ++ [workspaceId]
      errors := st.errors
      dirs := st.dirs.erase workspaceId }
  else
    { removed := st.removed
      errors := st.errors ++ [(workspaceId, "Workspace directory not found")]
      dirs := st.dirs }

/-- Embeds the `DELETE` handler body after validation: process every id,
then report `removedWorkspaces`, `removedCount = removedWorkspaces.length`
and `errors`. -/
def removeWorkspacesDELETE (existingDirs : List String)
    (workspaceIds : List String) : RemoveResult :=
  let st := workspaceIds.foldl pruneStep ⟨[], [], existingDirs⟩
  { removedWorkspaces := st.removed
    removedCount := st.removed.length
    errors := st.errors }

/-! ### Helper lemmas -/

lemma alistUpdate_lookup_self (m : List (String × α)) (k : String) (f : Option α → α) :
    (alistUpdate m k f).lookup k = some (f (m.lookup k)) := by
  induction m with
  | nil => simp [alistUpdate]
  | cons p rest ih =>
      obtain ⟨k', v⟩ := p
      by_cases h : k' = k
      · subst h
        simp [alistUpdate]
      · have h2 : ¬ k = k' := fun hh => h hh.symm
        have hb : (k' == k) = false := beq_false_of_ne h
        have hb2 : (k == k') = false := beq_false_of_ne h2
        simp [alistUpdate, List.lookup_cons, hb, hb2, ih]

lemma alistUpdate_lookup_ne (m : List (String × α)) (k t : String) (f : Option α → α)
    (h : ¬ t = k) :
    (alistUpdate m k f).lookup t = m.lookup t := by
  have hb : (t == k) = false := beq_false_of_ne h
  induction m with
  | nil => simp [alistUpdate, List.lookup_cons, hb]
  | cons p rest ih =>
      obtain ⟨k', v⟩ := p
      by_cases h' : k' = k
      · subst h'
        simp [alistUpdate, List.lookup_cons, hb]
      · have hb' : (k' == k) = false := beq_false_of_ne h'
        by_cases h'' : t = k'
        · subst h''
          simp [alistUpdate, List.lookup_cons, hb']
        · have hb'' : (t == k') = false := beq_false_of_ne h''
          simp [alistUpdate, List.lookup_cons, hb', hb'', ih]

/-- The capped sample-collection loop: append each key while the list is
shorter than 3. -/
def sampleFold (l : List String) (ks : List String) : List String :=
  ks.foldl (fun acc k => if acc.length < 3 then acc ++ [k] else acc) l

lemma sampleFold_eq (ks : List String) : ∀ l : List String,
    sampleFold l ks = l ++ ks.take (3 - l.length) := by
  induction ks with
  | nil => intro l; simp [sampleFold]
  | cons k ks ih =>
      intro l
      by_cases h : l.length < 3
      · have hstep : sampleFold l (k :: ks) = sampleFold (l ++ [k]) ks := by
          simp [sampleFold, h]
        have harith : 3 - l.length = (3 - (l ++ [k]).length) + 1 := by
          simp only [List.length_append, List.length_cons, List.length_nil]
          omega
        rw [hstep, ih (l ++ [k]), harith, List.take_succ_cons, List.append_assoc]
        rfl
      · have hstep : sampleFold l (k :: ks) = sampleFold l ks := by
          simp [sampleFold, h]
        have h0 : 3 - l.length = 0 := by omega
        rw [hstep, ih l, h0]
        simp

/-- The candidate entry pushed for a truthy row. -/
def rowEntry (r : StorageRow) : EntryWithSize :=
  ⟨r.key, calculateDataSizeMB r.value, r.value.getD ""⟩

/-- The candidate list accumulated by the scan: every row with truthy value,
in scan order. -/
def candList (rows : List StorageRow) : List EntryWithSize :=
  (rows.filter (fun r => jsTruthy r.value)).map rowEntry

/-- The keys of the rows that feed type bucket `t`: truthy value, key not
starting with `composerData:`, coarse type `t`, in scan order. -/
def otherKeys (rows : List StorageRow) (t : String) : List String :=
  (rows.filter (fun r =>
    jsTruthy r.value && !(strStartsWith r.key "composerData:")
      && (coarseType r.key == t))).map (fun r => r.key)

lemma scanStep_totalEntries (st : ScanState) (r : StorageRow) :
    (scanStep st r).stats.totalEntries = st.stats.totalEntries := by
  unfold scanStep
  by_cases h : jsTruthy r.value
  · by_cases hc : strStartsWith r.key "composerData:" <;> simp [h, hc]
  · simp [h]

lemma scanStep_counts (st : ScanState) (r : StorageRow) :
    (scanStep st r).stats.otherEntries + (scanStep st r).stats.composerEntries
      = st.stats.otherEntries + st.stats.composerEntries
        + (if jsTruthy r.value then 1 else 0) := by
  unfold scanStep
  by_cases h : jsTruthy r.value
  · by_cases hc : strStartsWith r.key "composerData:" <;> simp [h, hc] <;> omega
  · simp [h]

lemma scanStep_totalSizeMB (st : ScanState) (r : StorageRow) :
    (scanStep st r).stats.totalSizeMB
      = st.stats.totalSizeMB
        + (if jsTruthy r.value then calculateDataSizeMB r.value else 0) := by
  unfold scanStep
  by_cases h : jsTruthy r.value
  · by_cases hc : strStartsWith r.key "composerData:" <;> simp [h, hc]
  · simp [h]

lemma scanStep_cands (st : ScanState) (r : StorageRow) :
    (scanStep st r).allEntriesWithSize
      = st.allEntriesWithSize
        ++ (if jsTruthy r.value then [rowEntry r] else []) := by
  unfold scanStep rowEntry
  by_cases h : jsTruthy r.value
  · by_cases hc : strStartsWith r.key "composerData:" <;> simp [h, hc]
  · simp [h]

lemma foldl_scanStep_totalEntries (rows : List StorageRow) : ∀ st : ScanState,
    (rows.foldl scanStep st).stats.totalEntries = st.stats.totalEntries := by
  induction rows with
  | nil => intro st; rfl
  | cons r rest ih =>
      intro st
      rw [List.foldl_cons, ih (scanStep st r), scanStep_totalEntries]

lemma foldl_scanStep_counts (rows : List StorageRow) : ∀ st : ScanState,
    (rows.foldl scanStep st).stats.otherEntries
        + (rows.foldl scanStep st).stats.composerEntries
      = st.stats.otherEntries + st.stats.composerEntries
        + (rows.filter (fun r => jsTruthy r.value)).length := by
  induction rows with
  | nil => intro st; simp
  | cons r rest ih =>
      intro st
      rw [List.foldl_cons, ih (scanStep st r)]
      rw [scanStep_counts]
      by_cases h : jsTruthy r.value <;> (simp [List.filter_cons, h]; try omega)

lemma foldl_scanStep_totalSizeMB (rows : List StorageRow) : ∀ st : ScanState,
    (rows.foldl scanStep st).stats.totalSizeMB
      = st.stats.totalSizeMB
        + ((rows.filter (fun r => jsTruthy r.value)).map
            (fun r => calculateDataSizeMB r.value)).sum := by
  induction rows with
  | nil => intro st; simp
  | cons r rest ih =>
      intro st
      rw [List.foldl_cons, ih (scanStep st r), scanStep_totalSizeMB]
      by_cases h : jsTruthy r.value <;> (simp [List.filter_cons, h]; try ring)

lemma foldl_scanStep_cands (rows : List StorageRow) : ∀ st : ScanState,
    (rows.foldl scanStep st).allEntriesWithSize
      = st.allEntriesWithSize ++ candList rows := by
  induction rows with
  | nil => intro st; simp [candList]
  | cons r rest ih =>
      intro st
      rw [List.foldl_cons, ih (scanStep st r), scanStep_cands]
      by_cases h : jsTruthy r.value <;>
        simp [candList, List.filter_cons, h, List.append_assoc]

lemma foldl_scanStep_sampleKeys (rows : List StorageRow) : ∀ (st : ScanState) (t : String),
    ((rows.foldl scanStep st).stats.sampleKeys.lookup t) =
      match st.stats.sampleKeys.lookup t with
      | none =>
          if otherKeys rows t = [] then none
          else some (sampleFold [] (otherKeys rows t))
      | some l => some (sampleFold l (otherKeys rows t)) := by
  induction rows with
  | nil =>
      intro st t
      cases h : st.stats.sampleKeys.lookup t <;> simp [otherKeys, sampleFold, h]
  | cons r rest ih =>
      intro st t
      rw [List.foldl_cons, ih (scanStep st r) t]
      by_cases htr : jsTruthy r.value
      · by_cases hcomp : strStartsWith r.key "composerData:"
        · have hstep : (scanStep st r).stats.sampleKeys = st.stats.sampleKeys := by
            unfold scanStep
            simp [htr, hcomp]
          have hok : otherKeys (r :: rest) t = otherKeys rest t := by
            simp [otherKeys, List.filter_cons, htr, hcomp]
          rw [hstep, hok]
        · by_cases ht : coarseType r.key = t
          · have hstep : (scanStep st r).stats.sampleKeys
                = alistUpdate st.stats.sampleKeys t
                    (fun o =>
                      let l := o.getD []
                      if l.length < 3 then l ++ [r.key] else l) := by
              unfold scanStep
              simp [htr, hcomp, ht]
            have hok : otherKeys (r :: rest) t = r.key :: otherKeys rest t := by
              simp [otherKeys, List.filter_cons, htr, hcomp, ht]
            rw [hstep, hok, alistUpdate_lookup_self]
            cases h : st.stats.sampleKeys.lookup t with
            | none =>
                have hsf : sampleFold [] (r.key :: otherKeys rest t)
                    = sampleFold [r.key] (otherKeys rest t) := by
                  simp [sampleFold]
                simp [hsf]
            | some l =>
                have hsf : sampleFold l (r.key :: otherKeys rest t)
                    = sampleFold (if l.length < 3 then l ++ [r.key] else l)
                        (otherKeys rest t) := by
                  simp [sampleFold]
                simp [hsf]
          · have hstep : (scanStep st r).stats.sampleKeys.lookup t
                = st.stats.sampleKeys.lookup t := by
              unfold scanStep
              simp only [htr, if_true, hcomp, Bool.false_eq_true, if_false]
              exact alistUpdate_lookup_ne _ _ _ _ (fun hh => ht hh.symm)
            have hok : otherKeys (r :: rest) t = otherKeys rest t := by
              have : (coarseType r.key == t) = false :=
                beq_false_of_ne ht
              simp [otherKeys, List.filter_cons, htr, hcomp, this]
            rw [hstep, hok]
      · have hstep : scanStep st r = st := by
          unfold scanStep
          simp [htr]
        have hok : otherKeys (r :: rest) t = otherKeys rest t := by
          simp [otherKeys, List.filter_cons, htr]
        rw [hstep, hok]

/-- The scan state entering the loop of `analyzeRows`. -/
def initScan (rows : List StorageRow) : ScanState :=
  ⟨{ emptyGlobalDatabaseStats with totalEntries := rows.length }, []⟩

/-- The statistics record after the row loop, before the bucket filter. -/
def preStats (rows : List StorageRow) : GlobalDatabaseStats :=
  (rows.foldl scanStep (initScan rows)).stats

/-- The type buckets retained by the 0.1 MB filter. -/
def keptBuckets (rows : List StorageRow) : List (String × Nat) :=
  (preStats rows).entriesByType.filter
    (fun p : String × Nat =>
      MIN_SIZE_MB ≤ (((preStats rows).entriesSizeByType.lookup p.1).getD 0))

lemma analyze_ok_fields (rows : List StorageRow) :
    (analyzeGlobalDatabase true (.ok rows)).entriesByType = keptBuckets rows ∧
    (analyzeGlobalDatabase true (.ok rows)).entriesSizeByType
      = (keptBuckets rows).map
          (fun p : String × Nat =>
            (p.1, (((preStats rows).entriesSizeByType.lookup p.1).getD 0))) ∧
    (analyzeGlobalDatabase true (.ok rows)).sampleKeys
      = (keptBuckets rows).map
          (fun p : String × Nat =>
            (p.1, (((preStats rows).sampleKeys.lookup p.1).getD []))) ∧
    (analyzeGlobalDatabase true (.ok rows)).largestEntries
      = ((((rows.foldl scanStep (initScan rows)).allEntriesWithSize).insertionSort
            sizeDescRel).take 10).map
          (fun e : EntryWithSize => ⟨e.key, e.sizeMB, coarseType e.key⟩) :=
  ⟨rfl, rfl, rfl, rfl⟩

lemma lookup_map_self {β : Type} (kept : List (String × Nat)) (f : String → β)
    (t : String) (h : t ∈ kept.map Prod.fst) :
    ((kept.map (fun p : String × Nat => (p.1, f p.1))).lookup t) = some (f t) := by
  induction kept with
  | nil => simp at h
  | cons p rest ih =>
      obtain ⟨k, c⟩ := p
      by_cases hk : t = k
      · subst hk
        simp [List.lookup_cons]
      · have hb : (t == k) = false := beq_false_of_ne hk
        have h' : t ∈ rest.map Prod.fst := by
          rcases List.mem_cons.mp h with h | h
          · exact absurd h hk
          · exact h
        simp [List.lookup_cons, hb, ih h']

lemma lookup_map_eq {β : Type} (kept : List (String × Nat)) (f : String → β)
    (t : String) (b : β)
    (h : (kept.map (fun p : String × Nat => (p.1, f p.1))).lookup t = some b) :
    b = f t := by
  induction kept with
  | nil => simp at h
  | cons p rest ih =>
      obtain ⟨k, c⟩ := p
      by_cases hk : t = k
      · subst hk
        simp [List.lookup_cons] at h
        exact h.symm
      · have hb : (t == k) = false := beq_false_of_ne hk
        simp [List.lookup_cons, hb] at h
        exact ih h

lemma pre_sampleKeys (rows : List StorageRow) (t : String) :
    (preStats rows).sampleKeys.lookup t
      = if otherKeys rows t = [] then none
        else some ((otherKeys rows t).take 3) := by
  unfold preStats initScan
  rw [foldl_scanStep_sampleKeys]
  have h0 : (({ emptyGlobalDatabaseStats with totalEntries := rows.length }
      : GlobalDatabaseStats).sampleKeys.lookup t) = none := rfl
  rw [h0]
  by_cases h : otherKeys rows t = [] <;> simp [h, sampleFold_eq]

lemma scanWorkspaces_eq (pc pk : String → Option Nat) :
    ∀ (inputs : List (Except Unit WorkspaceScanInput)) (acc : List WorkspaceStats),
    inputs.foldl
        (fun acc i =>
          match i with
          | .error _ => acc
          | .ok wi => acc ++ [scanWorkspace pc pk wi]) acc
      = acc ++ inputs.filterMap
          (fun i =>
            match i with
            | .error _ => none
            | .ok wi => some (scanWorkspace pc pk wi)) := by
  intro inputs
  induction inputs with
  | nil => intro acc; simp
  | cons i rest ih =>
      intro acc
      cases i with
      | error e => simp [List.foldl_cons, List.filterMap_cons, ih]
      | ok wi => simp [List.foldl_cons, List.filterMap_cons, ih, List.append_assoc]

lemma foldl_pruneStep (ids : List String) : ∀ st : PruneState, ids.Nodup →
    (ids.foldl pruneStep st).removed
        = st.removed ++ ids.filter (fun i => st.dirs.contains i) ∧
    (ids.foldl pruneStep st).errors
        = st.errors ++ (ids.filter (fun i => !(st.dirs.contains i))).map
            (fun i => (i, "Workspace directory not found")) := by
  induction ids with
  | nil => intro st _; simp
  | cons i rest ih =>
      intro st h
      have hnotin : i ∉ rest := (List.nodup_cons.mp h).1
      have hrest : rest.Nodup := (List.nodup_cons.mp h).2
      by_cases hc : i ∈ st.dirs
      · have hcb : st.dirs.contains i = true := by
          simpa [List.contains, List.elem_eq_mem] using hc
        have hstep : pruneStep st i
            = ⟨st.removed ++ [i], st.errors, st.dirs.erase i⟩ := by
          simp [pruneStep, hc]
        have hfilt : rest.filter (fun x => (st.dirs.erase i).contains x)
            = rest.filter (fun x => st.dirs.contains x) := by
          apply List.filter_congr
          intro x hx
          have hxi : x ≠ i := fun hh => hnotin (hh ▸ hx)
          simp [List.contains, List.elem_eq_mem, List.mem_erase_of_ne hxi]
        have hfilt2 : rest.filter (fun x => !((st.dirs.erase i).contains x))
            = rest.filter (fun x => !(st.dirs.contains x)) := by
          apply List.filter_congr
          intro x hx
          have hxi : x ≠ i := fun hh => hnotin (hh ▸ hx)
          simp [List.contains, List.elem_eq_mem, List.mem_erase_of_ne hxi]
        obtain ⟨h1, h2⟩ := ih ⟨st.removed ++ [i], st.errors, st.dirs.erase i⟩ hrest
        rw [List.foldl_cons, hstep]
        constructor
        · rw [h1]
          show st.removed ++ [i]
              ++ rest.filter (fun x => (st.dirs.erase i).contains x) = _
          rw [hfilt]
          simp [List.filter_cons, hc, List.append_assoc]
        · rw [h2]
          show st.errors
              ++ (rest.filter (fun x => !((st.dirs.erase i).contains x))).map
                  (fun i => (i, "Workspace directory not found")) = _
          rw [hfilt2]
          simp [List.filter_cons, hc]
      · have hcb : st.dirs.contains i = false := by
          simpa [List.contains, List.elem_eq_mem] using hc
        have hstep : pruneStep st i
            = ⟨st.removed,
                st.errors ++ [(i, "Workspace directory not found")], st.dirs⟩ := by
          simp [pruneStep, hc]
        obtain ⟨h1, h2⟩ := ih ⟨st.removed,
          st.errors ++ [(i, "Workspace directory not found")], st.dirs⟩ hrest
        rw [List.foldl_cons, hstep]
        constructor
        · rw [h1]
          simp [List.filter_cons, hc]
        · rw [h2]
          simp [List.filter_cons, hc, List.append_assoc]

lemma length_filter_add_length_filter_not (l : List String) (p : String → Bool) :
    (l.filter p).length + (l.filter (fun x => !(p x))).length = l.length := by
  induction l with
  | nil => rfl
  | cons x rest ih =>
      by_cases h : p x <;> simp [List.filter_cons, h] <;> omega

/-! ### Claim theorems -/

/-- C4: for every key, the Key Classifier `formatDataType` returns exactly one
category, and it agrees with evaluating the spec's eight rules in the spec's
order (exact `chatdata` match, exact `composer.composerData` match, then the
five key-start rules, else Unknown) with first match winning. -/
theorem formatDataType_matches_spec_order (key : String) :
    formatDataType key = classifySpecOrder key := by
  by_cases h1 : key = "workbench.panel.aichat.view.aichat.chatdata"
  · subst h1; decide
  · by_cases h2 : key = "composer.composerData"
    · subst h2; decide
    · have hb1 : (key == "workbench.panel.aichat.view.aichat.chatdata") = false :=
        beq_false_of_ne h1
      have hb2 : (key == "composer.composerData") = false := beq_false_of_ne h2
      simp [formatDataType, classifySpecOrder, hb1, hb2]

/-- C8: if the global database file is absent, or the open/scan/close throws,
the Global Database Analyzer returns the all-zero, all-empty
`GlobalDatabaseStats` and never propagates an error. -/
theorem analyzeGlobalDatabase_failure_zero_stats
    (dbScan : Except Unit (List StorageRow)) :
    analyzeGlobalDatabase false dbScan = ⟨0, 0, 0, 0, 0, 0, [], [], [], []⟩ ∧
    analyzeGlobalDatabase true (.error ()) = ⟨0, 0, 0, 0, 0, 0, [], [], [], []⟩ :=
  ⟨rfl, rfl⟩

/-- A world for the single-entry handler in which the database file exists but
the query on the opened handle throws. -/
def throwingQueryWorld : DbEntryWorld :=
  ⟨"/ws", fun _ => true, fun _ _ _ => .error ()⟩

/-- C7: contrary to the claim, the handle is NOT closed on every path — when
`db.get` throws on the opened handle, the handler returns through the catch
with the handle still open (`db.close()` is not in a `finally`). -/
theorem dbEntry_handle_leak_on_query_throw :
    (databaseEntryGET ⟨some "k", some "global"⟩ throwingQueryWorld).openedHandles = 1 ∧
    (databaseEntryGET ⟨some "k", some "global"⟩ throwingQueryWorld).closedHandles = 0 ∧
    (databaseEntryGET ⟨some "k", some "global"⟩ throwingQueryWorld).response
      = .serverError "Failed to get database entry" :=
  ⟨rfl, rfl, rfl⟩

/-- C9: the single-entry lookup routes `source = "global"` to the global
store's `cursorDiskKV` table and any other source value to that workspace's
`ItemTable` under `<root>/<source>/`; it returns the client-error response
when the key parameter is missing, and a not-found response when the resolved
database file does not exist or the key has no row. -/
theorem dbEntry_routing (req : DbEntryRequest) (w : DbEntryWorld) :
    (jsTruthy req.keyParam = false →
      (databaseEntryGET req w).response = .clientError "Key parameter is required") ∧
    (req.sourceParam = some "global" →
      resolvedDb req w
        = (w.workspacePath ++ "/../globalStorage/state.vscdb", "cursorDiskKV")) ∧
    (∀ s : String, req.sourceParam = some s → ¬ s = "global" →
      resolvedDb req w
        = (w.workspacePath ++ "/" ++ s ++ "/state.vscdb", "ItemTable")) ∧
    (jsTruthy req.keyParam = true → ¬ w.workspacePath = "" →
      w.fileExists (resolvedDb req w).1 = false →
      (databaseEntryGET req w).response = .notFound "Database not found") ∧
    (jsTruthy req.keyParam = true → ¬ w.workspacePath = "" →
      w.fileExists (resolvedDb req w).1 = true →
      (databaseEntryGET req w).queried = some (resolvedDb req w)) ∧
    (jsTruthy req.keyParam = true → ¬ w.workspacePath = "" →
      w.fileExists (resolvedDb req w).1 = true →
      w.query (resolvedDb req w).1 (resolvedDb req w).2 (req.keyParam.getD "")
          = .ok none →
      (databaseEntryGET req w).response = .notFound "Entry not found") := by
  refine ⟨?_, ?_, ?_, ?_, ?_, ?_⟩
  · intro h
    simp [databaseEntryGET, h]
  · intro h
    simp [resolvedDb, h, globalDbPath]
  · intro s hs hne
    have hb : (req.sourceParam == some "global") = false := by
      rw [hs]
      simpa using hne
    simp [resolvedDb, hb, workspaceDbPath, hs, hne]
  · intro h1 h2 h3
    have hb : (w.workspacePath == "") = false := beq_false_of_ne h2
    simp [databaseEntryGET, h1, hb, h3]
  · intro h1 h2 h3
    have hb : (w.workspacePath == "") = false := beq_false_of_ne h2
    cases hq : w.query (resolvedDb req w).1 (resolvedDb req w).2
        (req.keyParam.getD "") with
    | error e => simp [databaseEntryGET, h1, hb, h3, hq]
    | ok o =>
        cases o with
        | none => simp [databaseEntryGET, h1, hb, h3, hq]
        | some v =>
            cases v with
            | none => simp [databaseEntryGET, h1, hb, h3, hq]
            | some s => simp [databaseEntryGET, h1, hb, h3, hq]
  · intro h1 h2 h3 hq
    have hb : (w.workspacePath == "") = false := beq_false_of_ne h2
    simp [databaseEntryGET, h1, hb, h3, hq]

/-- A world for the single-entry handler whose query finds no matching row. -/
def emptyQueryWorld : DbEntryWorld :=
  ⟨"/ws", fun _ => true, fun _ _ _ => .ok none⟩

/-- Witness for C9 at concrete inputs: global and workspace routing, the
missing-key client error, and the not-found response for an absent row. -/
theorem dbEntry_routing_witness :
    resolvedDb ⟨some "k", some "global"⟩ emptyQueryWorld
        = ("/ws" ++ "/../globalStorage/state.vscdb", "cursorDiskKV") ∧
    resolvedDb ⟨some "k", some "ws1"⟩ emptyQueryWorld
        = ("/ws" ++ "/" ++ "ws1" ++ "/state.vscdb", "ItemTable") ∧
    (databaseEntryGET ⟨none, some "global"⟩ emptyQueryWorld).response
        = .clientError "Key parameter is required" ∧
    (databaseEntryGET ⟨some "k", some "ws1"⟩ emptyQueryWorld).response
        = .notFound "Entry not found" :=
  ⟨(dbEntry_routing ⟨some "k", some "global"⟩ emptyQueryWorld).2.1 rfl,
   (dbEntry_routing ⟨some "k", some "ws1"⟩ emptyQueryWorld).2.2.1 "ws1" rfl
     (by decide),
   (dbEntry_routing ⟨none, some "global"⟩ emptyQueryWorld).1 rfl,
   (dbEntry_routing ⟨some "k", some "ws1"⟩ emptyQueryWorld).2.2.2.2.2
     (by decide) (by decide) rfl rfl⟩

/-- C10: when the single-entry lookup finds a row whose stored value is NULL,
the handler produces neither a success body nor a not-found response — the
byte-length computation on the null value throws and the catch returns the
generic server-error response. -/
theorem dbEntry_null_value_server_error (req : DbEntryRequest) (w : DbEntryWorld)
    (hkey : jsTruthy req.keyParam = true)
    (hws : ¬ w.workspacePath = "")
    (hfile : w.fileExists (resolvedDb req w).1 = true)
    (hq : w.query (resolvedDb req w).1 (resolvedDb req w).2 (req.keyParam.getD "")
        = .ok (some none)) :
    (databaseEntryGET req w).response = .serverError "Failed to get database entry" ∧
    (∀ k v s n, ¬ (databaseEntryGET req w).response = .ok k v s n) ∧
    (∀ m, ¬ (databaseEntryGET req w).response = .notFound m) := by
  have hb : (w.workspacePath == "") = false := beq_false_of_ne hws
  have hmain : (databaseEntryGET req w).response
      = .serverError "Failed to get database entry" := by
    simp [databaseEntryGET, hkey, hb, hfile, hq]
  refine ⟨hmain, ?_, ?_⟩
  · intro k v s n
    rw [hmain]
    simp
  · intro m
    rw [hmain]
    simp

/-- A world for the single-entry handler whose query finds a row with NULL
value. -/
def nullValueWorld : DbEntryWorld :=
  ⟨"/ws", fun _ => true, fun _ _ _ => .ok (some none)⟩

/-- Witness for C10 at a concrete request and world. -/
theorem dbEntry_null_value_server_error_witness :
    (databaseEntryGET ⟨some "k", some "global"⟩ nullValueWorld).response
      = .serverError "Failed to get database entry" :=
  (dbEntry_null_value_server_error ⟨some "k", some "global"⟩ nullValueWorld
    (by decide) (by decide) rfl rfl).1

/-- C5 (amended): for a workspace whose chat-data row is present and non-empty
but whose JSON parse throws, the scanner still produces the record (the parse
failure is caught), with `hasChats = true`, `chatCount = 0`, and — contrary to
the original claim — `chatDataSizeMB = 0`, because the size assignment sits
inside the same `try` block as the parse; and the scan processes every
successfully-read workspace regardless of other entries. -/
theorem scanWorkspace_malformed_json (parseChat parseComposer : String → Option Nat)
    (wi : WorkspaceScanInput) (v : String)
    (hrow : wi.chatResult = some (some v)) (hv : ¬ v = "")
    (hparse : parseChat v = none) :
    (scanWorkspace parseChat parseComposer wi).hasChats = true ∧
    (scanWorkspace parseChat parseComposer wi).chatCount = 0 ∧
    (scanWorkspace parseChat parseComposer wi).chatDataSizeMB = 0 ∧
    ∀ inputs : List (Except Unit WorkspaceScanInput),
      scanWorkspaces parseChat parseComposer inputs
        = inputs.filterMap
            (fun i =>
              match i with
              | .error _ => none
              | .ok wj => some (scanWorkspace parseChat parseComposer wj)) := by
  have hb : (v == "") = false := beq_false_of_ne hv
  refine ⟨?_, ?_, ?_, ?_⟩
  · simp [scanWorkspace, analyzeWorkspaceField, hrow, jsTruthy, hb, hparse]
  · simp [scanWorkspace, analyzeWorkspaceField, hrow, jsTruthy, hb, hparse]
  · simp [scanWorkspace, analyzeWorkspaceField, hrow, jsTruthy, hb, hparse]
  · intro inputs
    simpa using scanWorkspaces_eq parseChat parseComposer inputs []

/-- A JSON-decode oracle on which every parse throws. -/
def failParse : String → Option Nat := fun _ => none

/-- A workspace whose chat-data row holds `"["`, which is malformed JSON. -/
def malformedWorkspace : WorkspaceScanInput :=
  ⟨"ws1", none, some (some "["), none⟩

/-- Witness for C5 at a concrete workspace with malformed chat JSON. -/
theorem scanWorkspace_malformed_json_witness :
    (scanWorkspace failParse failParse malformedWorkspace).hasChats = true ∧
    (scanWorkspace failParse failParse malformedWorkspace).chatCount = 0 ∧
    (scanWorkspace failParse failParse malformedWorkspace).chatDataSizeMB = 0 :=
  ⟨(scanWorkspace_malformed_json failParse failParse malformedWorkspace "["
      rfl (by decide) rfl).1,
   (scanWorkspace_malformed_json failParse failParse malformedWorkspace "["
      rfl (by decide) rfl).2.1,
   (scanWorkspace_malformed_json failParse failParse malformedWorkspace "["
      rfl (by decide) rfl).2.2.1⟩

/-- C5 counterexample: the claim says `chatSizeBytes` equals the byte length
of the raw value on a malformed-JSON row; the code leaves it at 0 instead. -/
theorem scanWorkspace_malformed_size_counterexample :
    ¬ ((scanWorkspace failParse failParse malformedWorkspace).chatDataSizeMB
        = calculateDataSizeMB (some "[")) := by
  intro h
  have h0 : (scanWorkspace failParse failParse malformedWorkspace).chatDataSizeMB
      = 0 := rfl
  have h1 : calculateDataSizeMB (some "[") = ((1 : ℕ) : ℚ) / (1024 * 1024) := rfl
  rw [h0, h1] at h
  norm_num at h

/-- C6: the Workspace Pruner processes every id regardless of other items'
failures: with no duplicate ids, the removed list is exactly the ids whose
directory exists (each deleted), the error list is exactly the ids whose
directory is missing, `removedCount` equals the removed list's length, and
every id lands in exactly one of the two reported lists. -/
theorem removeWorkspaces_outcomes (existingDirs workspaceIds : List String)
    (h : workspaceIds.Nodup) :
    (removeWorkspacesDELETE existingDirs workspaceIds).removedWorkspaces
        = workspaceIds.filter (fun i => existingDirs.contains i) ∧
    (removeWorkspacesDELETE existingDirs workspaceIds).errors
        = (workspaceIds.filter (fun i => !(existingDirs.contains i))).map
            (fun i => (i, "Workspace directory not found")) ∧
    (removeWorkspacesDELETE existingDirs workspaceIds).removedCount
        = (removeWorkspacesDELETE existingDirs workspaceIds).removedWorkspaces.length ∧
    (removeWorkspacesDELETE existingDirs workspaceIds).removedWorkspaces.length
        + (removeWorkspacesDELETE existingDirs workspaceIds).errors.length
      = workspaceIds.length := by
  obtain ⟨h1, h2⟩ := foldl_pruneStep workspaceIds ⟨[], [], existingDirs⟩ h
  refine ⟨?_, ?_, rfl, ?_⟩
  · show (workspaceIds.foldl pruneStep ⟨[], [], existingDirs⟩).removed = _
    rw [h1]
    simp
  · show (workspaceIds.foldl pruneStep ⟨[], [], existingDirs⟩).errors = _
    rw [h2]
    simp
  · show (workspaceIds.foldl pruneStep ⟨[], [], existingDirs⟩).removed.length
        + (workspaceIds.foldl pruneStep ⟨[], [], existingDirs⟩).errors.length = _
    rw [h1, h2]
    simp only [List.nil_append, List.length_map]
    exact length_filter_add_length_filter_not workspaceIds _

/-- Witness for C6: a batch of three ids with one missing directory yields two
removals and one error, matching the spec's example. -/
theorem removeWorkspaces_outcomes_witness :
    (removeWorkspacesDELETE ["a", "c"] ["a", "b", "c"]).removedWorkspaces
        = ["a", "c"] ∧
    (removeWorkspacesDELETE ["a", "c"] ["a", "b", "c"]).removedCount = 2 ∧
    (removeWorkspacesDELETE ["a", "c"] ["a", "b", "c"]).errors.length = 1 := by
  have h := removeWorkspaces_outcomes ["a", "c"] ["a", "b", "c"] (by decide)
  refine ⟨h.1.trans (by decide), ?_, ?_⟩
  · rw [h.2.2.1, h.1]
    decide
  · rw [h.2.1]
    decide

/-- C2 counterexample: a single row with NULL value makes
`otherEntries + composerEntries = 0` while `totalEntries = 1`, so the claimed
invariant fails as stated. -/
theorem globalStats_total_counterexample :
    ¬ ((analyzeGlobalDatabase true (.ok [⟨"k", none⟩])).otherEntries
        + (analyzeGlobalDatabase true (.ok [⟨"k", none⟩])).composerEntries
      = (analyzeGlobalDatabase true (.ok [⟨"k", none⟩])).totalEntries) := by
  decide

/-- C2 (amended): `totalEntries` counts every row physically read (NULL-valued
rows included), while `otherEntries + composerEntries` counts exactly the rows
with non-null, non-empty value, and those rows alone feed `totalSizeMB` — so
the claimed equation holds exactly when every row's value is truthy. -/
theorem globalStats_counts (rows : List StorageRow) :
    (analyzeGlobalDatabase true (.ok rows)).totalEntries = rows.length ∧
    (analyzeGlobalDatabase true (.ok rows)).otherEntries
        + (analyzeGlobalDatabase true (.ok rows)).composerEntries
      = (rows.filter (fun r => jsTruthy r.value)).length ∧
    (analyzeGlobalDatabase true (.ok rows)).totalSizeMB
      = ((rows.filter (fun r => jsTruthy r.value)).map
          (fun r => calculateDataSizeMB r.value)).sum := by
  refine ⟨?_, ?_, ?_⟩
  · show (preStats rows).totalEntries = rows.length
    unfold preStats
    rw [foldl_scanStep_totalEntries]
    rfl
  · show (preStats rows).otherEntries + (preStats rows).composerEntries = _
    unfold preStats
    rw [foldl_scanStep_counts]
    simp [initScan, emptyGlobalDatabaseStats]
  · show (preStats rows).totalSizeMB = _
    unfold preStats
    rw [foldl_scanStep_totalSizeMB]
    simp [initScan, emptyGlobalDatabaseStats]

/-- C3: every type bucket retained in the output maps has accumulated size at
least 0.1 MB; a bucket is dropped from `entriesByType`, `entriesSizeByType`
and `sampleKeys` simultaneously (the three maps always carry the same keys);
and each retained sample list is the first-3-encountered keys of its bucket,
hence has at most 3 entries. -/
theorem globalStats_buckets (rows : List StorageRow) :
    ((analyzeGlobalDatabase true (.ok rows)).entriesByType.all
        (fun p => MIN_SIZE_MB ≤
          (((analyzeGlobalDatabase true (.ok rows)).entriesSizeByType.lookup
              p.1).getD 0))) = true ∧
    ((analyzeGlobalDatabase true (.ok rows)).entriesSizeByType.map Prod.fst
      = (analyzeGlobalDatabase true (.ok rows)).entriesByType.map Prod.fst) ∧
    ((analyzeGlobalDatabase true (.ok rows)).sampleKeys.map Prod.fst
      = (analyzeGlobalDatabase true (.ok rows)).entriesByType.map Prod.fst) ∧
    ((analyzeGlobalDatabase true (.ok rows)).sampleKeys.all
        (fun p => p.2 == (otherKeys rows p.1).take 3)) = true ∧
    ((analyzeGlobalDatabase true (.ok rows)).sampleKeys.all
        (fun p => p.2.length ≤ 3)) = true := by
  obtain ⟨hBT, hSz, hSk, -⟩ := analyze_ok_fields rows
  have hsample : ∀ p : String × List String,
      p ∈ (analyzeGlobalDatabase true (.ok rows)).sampleKeys →
      p.2 = (otherKeys rows p.1).take 3 := by
    intro p hp
    rw [hSk] at hp
    obtain ⟨q, hq, hqp⟩ := List.mem_map.mp hp
    have h1 : p.1 = q.1 := by rw [← hqp]
    have h2 : p.2 = ((preStats rows).sampleKeys.lookup q.1).getD [] := by
      rw [← hqp]
    rw [h1, h2, pre_sampleKeys]
    by_cases hk : otherKeys rows q.1 = []
    · simp [hk]
    · simp [hk]
  refine ⟨?_, ?_, ?_, ?_, ?_⟩
  · rw [List.all_eq_true]
    intro p hp
    rw [hBT] at hp
    have hmem := List.mem_filter.mp hp
    have hpred := of_decide_eq_true hmem.2
    have hfst : p.1 ∈ (keptBuckets rows).map Prod.fst :=
      List.mem_map_of_mem Prod.fst (hBT ▸ hp)
    have hlook := lookup_map_self (keptBuckets rows)
      (fun t => ((preStats rows).entriesSizeByType.lookup t).getD 0) p.1 hfst
    rw [hSz]
    simp only [hlook, Option.getD_some]
    exact decide_eq_true hpred
  · rw [hSz, hBT]
    simp
  · rw [hSk, hBT]
    simp
  · rw [List.all_eq_true]
    intro p hp
    have := hsample p hp
    simp [this]
  · rw [List.all_eq_true]
    intro p hp
    have := hsample p hp
    simp only [this]
    simp [List.length_take_le]

/-- C1 counterexample: a `composerData:` row with non-null value appears in
`largestEntries` (the candidate push happens before the composer/other
branch), so the candidate set is not restricted to non-composer rows as the
claim states — under the claim this output would be empty. -/
theorem largestEntries_composer_counterexample :
    ((analyzeGlobalDatabase true
        (.ok [⟨"composerData:1", some "xx"⟩])).largestEntries.map
      (fun e => e.key)) = ["composerData:1"] ∧
    strStartsWith "composerData:1" "composerData:" = true :=
  ⟨by decide, by decide⟩

/-- C1 (amended): the candidate set for the ranking is every row with
non-null, non-empty value — `composerData:` rows included; `largestEntries`
is that set stably sorted descending by size (ties keeping scan order),
truncated to the first 10, each entry carrying the coarse type of its key. -/
theorem largestEntries_spec (rows : List StorageRow) :
    (analyzeGlobalDatabase true (.ok rows)).largestEntries
      = (((candList rows).insertionSort sizeDescRel).take 10).map
          (fun e : EntryWithSize => ⟨e.key, e.sizeMB, coarseType e.key⟩) ∧
    (analyzeGlobalDatabase true (.ok rows)).largestEntries.length ≤ 10 ∧
    ((analyzeGlobalDatabase true (.ok rows)).largestEntries.map
        (fun e => e.sizeMB)).Pairwise (fun a b => b ≤ a) ∧
    (∀ q : ℚ,
      ((candList rows).insertionSort sizeDescRel).filter (fun e => e.sizeMB == q)
        = (candList rows).filter (fun e => e.sizeMB == q)) := by
  have hcands : (rows.foldl scanStep (initScan rows)).allEntriesWithSize
      = candList rows := by
    rw [foldl_scanStep_cands]
    simp [initScan]
  have hchar : (analyzeGlobalDatabase true (.ok rows)).largestEntries
      = (((candList rows).insertionSort sizeDescRel).take 10).map
          (fun e : EntryWithSize => ⟨e.key, e.sizeMB, coarseType e.key⟩) := by
    have h := (analyze_ok_fields rows).2.2.2
    rw [h, hcands]
  refine ⟨hchar, ?_, ?_, ?_⟩
  · rw [hchar]
    simp only [List.length_map, List.length_take]
    exact min_le_left _ _
  · rw [hchar]
    have hs : ((candList rows).insertionSort sizeDescRel).Pairwise sizeDescRel :=
      List.sorted_insertionSort sizeDescRel (candList rows)
    have ht : (((candList rows).insertionSort sizeDescRel).take 10).Pairwise
        sizeDescRel :=
      hs.sublist (List.take_sublist 10 _)
    simp only [List.map_map]
    rw [List.pairwise_map]
    exact ht
  · intro q
    have hsubl : List.Sublist ((candList rows).filter (fun e => e.sizeMB == q))
        ((candList rows).insertionSort sizeDescRel) := by
      apply List.sublist_insertionSort
      · apply List.pairwise_of_forall_mem_list
        intro a ha b hb
        have haq : a.sizeMB = q :=
          by simpa using (List.mem_filter.mp ha).2
        have hbq : b.sizeMB = q :=
          by simpa using (List.mem_filter.mp hb).2
        show b.sizeMB ≤ a.sizeMB
        rw [haq, hbq]
      · exact List.filter_sublist _
    have hsub2 : List.Sublist ((candList rows).filter (fun e => e.sizeMB == q))
        (((candList rows).insertionSort sizeDescRel).filter
            (fun e => e.sizeMB == q)) := by
      have := hsubl.filter (fun e => e.sizeMB == q)
      rwa [List.filter_filter, (by
        funext e
        rw [Bool.and_self] : (fun e : EntryWithSize =>
          (e.sizeMB == q) && (e.sizeMB == q)) = fun e => e.sizeMB == q)] at this
    have hperm : List.Perm
        (((candList rows).insertionSort sizeDescRel).filter
          (fun e => e.sizeMB == q))
        ((candList rows).filter (fun e => e.sizeMB == q)) :=
      (List.perm_insertionSort sizeDescRel (candList rows)).filter _
    exact (hsub2.eq_of_length hperm.length_eq.symm).symm
